import Mathlib

/-!
Verification of the SmartCL repository's single source file,
`src/examples/CLKernels/SmartCL.h`, a 15-line C/C++ preprocessor header.

The header is pure conditional-compilation glue, so we shallowly embed the
relevant fragment of the C preprocessor: a preprocessing state records the
macro table, the include events performed (each with the macro table in
force at the moment of inclusion), the pragmas issued, the set of files
marked by `#pragma once`, and the token output contributed to the
translation unit.  The header itself is translated directive by directive
from the source, and processing it is a total function on states.
-/

/-- A macro table: object-like macro name paired with its replacement
token list, most recent definition first. -/
abbrev MacroTable := List (String × List String)

/-- Look up the replacement list of an object-like macro (most recent
definition wins). -/
def lookupDef : MacroTable → String → Option (List String)
  | [], _ => none
  | (n, r) :: rest, x => if n = x then some r else lookupDef rest x

/-- Whether a macro name is currently defined. -/
def isDefined (m : MacroTable) (n : String) : Bool :=
  (lookupDef m n).isSome

/-- One-step expansion of a single token: a defined object-like macro is
replaced by its replacement list, any other token stands unchanged. -/
def expandToken (m : MacroTable) (t : String) : List String :=
  match lookupDef m t with
  | some r => r
  | none => [t]

/-- The preprocessing state threaded through a translation unit. -/
structure PPState where
  macros : MacroTable
  includes : List (String × MacroTable)
  pragmas : List String
  onceFiles : List String
  output : List String
deriving Repr, DecidableEq

/-- A directive or text line that may occur outside or inside the
conditional block (the source file nests conditionals one level deep). -/
inductive PlainLine where
  | defineObj (name : String) (repl : List String)
  | includeFile (file : String)
  | pragmaDirective (text : String)
  | textLine (tokens : List String)
deriving Repr, DecidableEq

/-- A top-level line of a header file. -/
inductive HeaderLine where
  | pragmaOnce
  | plain (l : PlainLine)
  | ifdefBlock (name : String) (body : List PlainLine)
deriving Repr, DecidableEq

/-- Effect of one unconditional line on the preprocessing state. -/
def applyPlain (st : PPState) : PlainLine → PPState
  | .defineObj n r => { st with macros := (n, r) :: st.macros }
  | .includeFile f => { st with includes := st.includes ++ [(f, st.macros)] }
  | .pragmaDirective t => { st with pragmas := st.pragmas ++ [t] }
  | .textLine ts =>
      { st with output := st.output ++ ts.foldl (fun acc t => acc ++ expandToken st.macros t) [] }

/-- Effect of a list of unconditional lines, in order. -/
def applyPlains (st : PPState) (ls : List PlainLine) : PPState :=
  ls.foldl applyPlain st

/-- Effect of one top-level header line while processing file `cur`:
`#pragma once` marks `cur`; an `#ifdef` block runs its body exactly when
the tested macro is defined. -/
def applyHeaderLine (cur : String) (st : PPState) : HeaderLine → PPState
  | .pragmaOnce => { st with onceFiles := cur :: st.onceFiles }
  | .plain l => applyPlain st l
  | .ifdefBlock n body => if isDefined st.macros n = true then applyPlains st body else st

/-- Process the lines of a header file named `cur`. -/
def processHeader (cur : String) (ls : List HeaderLine) (st : PPState) : PPState :=
  ls.foldl (applyHeaderLine cur) st

/-- Include a header: a file already marked by `#pragma once` is skipped
entirely, otherwise its lines are processed. -/
def includeOnce (cur : String) (ls : List HeaderLine) (st : PPState) : PPState :=
  if cur ∈ st.onceFiles then st else processHeader cur ls st

/-- Replacement list of the `kernel` macro, read off line 9 of the source:
`#define kernel extern "C" __declspec(dllexport)`. -/
def kernelRepl : List String :=
  ["extern", "\"C\"", "__declspec", "(", "dllexport", ")"]

/-- The header `src/examples/CLKernels/SmartCL.h`, directive by directive. -/
def SmartCL_h : List HeaderLine :=
  [ .pragmaOnce,
    .ifdefBlock "_WINDOWS"
      [ .defineObj "WIN32_LEAN_AND_MEAN" [],
        .includeFile "windows.h",
        .includeFile "stdio.h",
        .defineObj "kernel" kernelRepl,
        .defineObj "global" [],
        .defineObj "local" [],
        .pragmaDirective "warning (disable : 4326)" ] ]

/-- Including `SmartCL.h` into a preprocessing state. -/
def includeSmartCL (st : PPState) : PPState :=
  includeOnce "SmartCL.h" SmartCL_h st

/-- The raw text of `src/examples/CLKernels/SmartCL.h`, one string per
source line. -/
def SmartCL_h_text : List String :=
  [ "#pragma once",
    "",
    "#ifdef _WINDOWS",
    "",
    "#define WIN32_LEAN_AND_MEAN",
    "#include <windows.h>",
    "#include <stdio.h>",
    "",
    "#define kernel extern \"C\" __declspec(dllexport)",
    "#define global",
    "#define local",
    "",
    "#pragma warning (disable : 4326) // For void main",
    "",
    "#endif // _WINDOWS" ]

/-- A line consisting only of spaces. -/
def isBlankLine (s : String) : Bool :=
  s.data.all (fun c => c = ' ')

/-- A line whose first character is `#`, i.e. a preprocessor directive. -/
def isDirectiveLine (s : String) : Bool :=
  match s.data with
  | [] => false
  | c :: _ => c = '#'

/-- Modelled from the spec: the dependent translation units of this
repository (OpenCL-style kernel sources, not under src/) reference the
qualifier tokens `kernel`, `global` and `local`; such a unit compiles only
when each of the three is a defined macro or carries the unit's own
definition. -/
def dependentTUCompiles (m : MacroTable) (ownDefs : List String) : Bool :=
  ["kernel", "global", "local"].all (fun n => isDefined m n || ownDefs.contains n)

/-- The macro definitions the header contributes, as a function of the
single bit "is `_WINDOWS` defined" (most recent first). -/
def headerMacroDefs (w : Bool) : MacroTable :=
  if w then
    [("local", []), ("global", []), ("kernel", kernelRepl), ("WIN32_LEAN_AND_MEAN", [])]
  else []

/-- The file names the header includes, as a function of the single bit. -/
def headerIncludeNames (w : Bool) : List String :=
  if w then ["windows.h", "stdio.h"] else []

/-- The pragma directives the header issues (beyond `#pragma once`), as a
function of the single bit. -/
def headerPragmaList (w : Bool) : List String :=
  if w then ["warning (disable : 4326)"] else []

/-- A build state with `_WINDOWS` defined and the header not yet seen. -/
def stWin : PPState :=
  { macros := [("_WINDOWS", [])], includes := [], pragmas := [], onceFiles := [], output := [] }

/-- A build state with `_WINDOWS` not defined and the header not yet seen. -/
def stNone : PPState :=
  { macros := [], includes := [], pragmas := [], onceFiles := [], output := [] }

/-- Normal form of including the header when `_WINDOWS` is defined. -/
lemma includeSmartCL_win (st : PPState)
    (h1 : "SmartCL.h" ∉ st.onceFiles)
    (h2 : isDefined st.macros "_WINDOWS" = true) :
    includeSmartCL st =
      { macros := ("local", []) :: ("global", []) :: ("kernel", kernelRepl) ::
          ("WIN32_LEAN_AND_MEAN", []) :: st.macros,
        includes := st.includes ++
          [("windows.h", ("WIN32_LEAN_AND_MEAN", []) :: st.macros),
           ("stdio.h", ("WIN32_LEAN_AND_MEAN", []) :: st.macros)],
        pragmas := st.pragmas ++ ["warning (disable : 4326)"],
        onceFiles := "SmartCL.h" :: st.onceFiles,
        output := st.output } := by
  simp [includeSmartCL, includeOnce, processHeader, SmartCL_h, applyHeaderLine,
    applyPlains, applyPlain, h1, h2]

/-- Normal form of including the header when `_WINDOWS` is not defined:
only the `#pragma once` mark is recorded. -/
lemma includeSmartCL_nonwin (st : PPState)
    (h1 : "SmartCL.h" ∉ st.onceFiles)
    (h2 : isDefined st.macros "_WINDOWS" = false) :
    includeSmartCL st = { st with onceFiles := "SmartCL.h" :: st.onceFiles } := by
  simp [includeSmartCL, includeOnce, processHeader, SmartCL_h, applyHeaderLine,
    applyPlains, applyPlain, h1, h2]

/-- C1: with `_WINDOWS` defined, preprocessing the header defines the
macro `kernel` with replacement exactly `extern "C" __declspec(dllexport)`,
and the header contributes no tokens to the translation unit (it
preprocesses without error). -/
theorem kernel_macro_on_windows (st : PPState)
    (h1 : "SmartCL.h" ∉ st.onceFiles)
    (h2 : isDefined st.macros "_WINDOWS" = true) :
    lookupDef (includeSmartCL st).macros "kernel" = some kernelRepl ∧
      (includeSmartCL st).output = st.output := by
  rw [includeSmartCL_win st h1 h2]
  simp [lookupDef]

/-- C1 witness: the theorem at the concrete Windows build state. -/
theorem kernel_macro_on_windows_witness :
    ("SmartCL.h" ∉ stWin.onceFiles) ∧ (isDefined stWin.macros "_WINDOWS" = true) ∧
      (lookupDef (includeSmartCL stWin).macros "kernel" = some kernelRepl ∧
        (includeSmartCL stWin).output = stWin.output) :=
  ⟨by decide, by decide, kernel_macro_on_windows stWin (by decide) (by decide)⟩

/-- C2: with `_WINDOWS` not defined, the header defines none of `kernel`,
`global`, `local` (each stays undefined if it was), each still expands to
itself, and a dependent translation unit referencing them with no
definitions of its own does not compile. -/
theorem qualifiers_undefined_off_windows (st : PPState)
    (h1 : "SmartCL.h" ∉ st.onceFiles)
    (h2 : isDefined st.macros "_WINDOWS" = false)
    (hk : lookupDef st.macros "kernel" = none)
    (hg : lookupDef st.macros "global" = none)
    (hl : lookupDef st.macros "local" = none) :
    lookupDef (includeSmartCL st).macros "kernel" = none ∧
      lookupDef (includeSmartCL st).macros "global" = none ∧
      lookupDef (includeSmartCL st).macros "local" = none ∧
      expandToken (includeSmartCL st).macros "kernel" = ["kernel"] ∧
      expandToken (includeSmartCL st).macros "global" = ["global"] ∧
      expandToken (includeSmartCL st).macros "local" = ["local"] ∧
      dependentTUCompiles (includeSmartCL st).macros [] = false := by
  rw [includeSmartCL_nonwin st h1 h2]
  simp [expandToken, dependentTUCompiles, isDefined, hk, hg, hl]

/-- C2 witness: the theorem at the concrete non-Windows build state. -/
theorem qualifiers_undefined_off_windows_witness :
    ("SmartCL.h" ∉ stNone.onceFiles) ∧ (isDefined stNone.macros "_WINDOWS" = false) ∧
      (lookupDef (includeSmartCL stNone).macros "kernel" = none ∧
        lookupDef (includeSmartCL stNone).macros "global" = none ∧
        lookupDef (includeSmartCL stNone).macros "local" = none ∧
        expandToken (includeSmartCL stNone).macros "kernel" = ["kernel"] ∧
        expandToken (includeSmartCL stNone).macros "global" = ["global"] ∧
        expandToken (includeSmartCL stNone).macros "local" = ["local"] ∧
        dependentTUCompiles (includeSmartCL stNone).macros [] = false) :=
  ⟨by decide, by decide,
    qualifiers_undefined_off_windows stNone (by decide) (by decide)
      (by decide) (by decide) (by decide)⟩

/-- C3: with `_WINDOWS` defined, `global` and `local` are defined as
object-like macros with empty replacement lists, so each occurrence of
them expands to nothing. -/
theorem global_local_empty_on_windows (st : PPState)
    (h1 : "SmartCL.h" ∉ st.onceFiles)
    (h2 : isDefined st.macros "_WINDOWS" = true) :
    lookupDef (includeSmartCL st).macros "global" = some [] ∧
      lookupDef (includeSmartCL st).macros "local" = some [] ∧
      expandToken (includeSmartCL st).macros "global" = [] ∧
      expandToken (includeSmartCL st).macros "local" = [] := by
  rw [includeSmartCL_win st h1 h2]
  simp [lookupDef, expandToken]

/-- C3 witness: the theorem at the concrete Windows build state. -/
theorem global_local_empty_on_windows_witness :
    ("SmartCL.h" ∉ stWin.onceFiles) ∧ (isDefined stWin.macros "_WINDOWS" = true) ∧
      (lookupDef (includeSmartCL stWin).macros "global" = some [] ∧
        lookupDef (includeSmartCL stWin).macros "local" = some [] ∧
        expandToken (includeSmartCL stWin).macros "global" = [] ∧
        expandToken (includeSmartCL stWin).macros "local" = []) :=
  ⟨by decide, by decide, global_local_empty_on_windows stWin (by decide) (by decide)⟩

/-- C4: with `_WINDOWS` not defined, processing the header contributes no
tokens, no includes, no macro definitions and no pragmas: everything in
the state except the `#pragma once` mark is unchanged. -/
theorem header_empty_off_windows (st : PPState)
    (h1 : "SmartCL.h" ∉ st.onceFiles)
    (h2 : isDefined st.macros "_WINDOWS" = false) :
    (includeSmartCL st).macros = st.macros ∧
      (includeSmartCL st).includes = st.includes ∧
      (includeSmartCL st).pragmas = st.pragmas ∧
      (includeSmartCL st).output = st.output := by
  rw [includeSmartCL_nonwin st h1 h2]
  simp

/-- C4 witness: the theorem at the concrete non-Windows build state. -/
theorem header_empty_off_windows_witness :
    ("SmartCL.h" ∉ stNone.onceFiles) ∧ (isDefined stNone.macros "_WINDOWS" = false) ∧
      ((includeSmartCL stNone).macros = stNone.macros ∧
        (includeSmartCL stNone).includes = stNone.includes ∧
        (includeSmartCL stNone).pragmas = stNone.pragmas ∧
        (includeSmartCL stNone).output = stNone.output) :=
  ⟨by decide, by decide, header_empty_off_windows stNone (by decide) (by decide)⟩

/-- C5: the header includes `windows.h` and `stdio.h` (in that order)
exactly when `_WINDOWS` is defined, and includes nothing otherwise. -/
theorem includes_iff_windows (st : PPState)
    (h1 : "SmartCL.h" ∉ st.onceFiles) :
    (includeSmartCL st).includes.map Prod.fst =
      st.includes.map Prod.fst ++
        (if isDefined st.macros "_WINDOWS" = true then ["windows.h", "stdio.h"] else []) := by
  cases h2 : isDefined st.macros "_WINDOWS" with
  | true => rw [includeSmartCL_win st h1 h2]; simp
  | false => rw [includeSmartCL_nonwin st h1 h2]; simp

/-- C5 witness: the theorem at the concrete Windows build state. -/
theorem includes_iff_windows_witness :
    ("SmartCL.h" ∉ stWin.onceFiles) ∧
      (includeSmartCL stWin).includes.map Prod.fst =
        stWin.includes.map Prod.fst ++
          (if isDefined stWin.macros "_WINDOWS" = true then ["windows.h", "stdio.h"] else []) :=
  ⟨by decide, includes_iff_windows stWin (by decide)⟩

/-- C6: the header is guarded by `#pragma once`: in every build
configuration and from every prior state, including it a second time
changes nothing, so two or more inclusions have the effect of one. -/
theorem include_idempotent (st : PPState) :
    includeSmartCL (includeSmartCL st) = includeSmartCL st := by
  by_cases hmem : "SmartCL.h" ∈ st.onceFiles
  · have h : includeSmartCL st = st := by
      simp [includeSmartCL, includeOnce, hmem]
    rw [h, h]
  · have honce : (includeSmartCL st).onceFiles = "SmartCL.h" :: st.onceFiles := by
      cases h2 : isDefined st.macros "_WINDOWS" with
      | true => rw [includeSmartCL_win st hmem h2]
      | false => rw [includeSmartCL_nonwin st hmem h2]
    have hmem2 : "SmartCL.h" ∈ (includeSmartCL st).onceFiles := by
      rw [honce]; exact List.mem_cons_self _ _
    have hstep : includeSmartCL (includeSmartCL st) =
        if "SmartCL.h" ∈ (includeSmartCL st).onceFiles then includeSmartCL st
        else processHeader "SmartCL.h" SmartCL_h (includeSmartCL st) := rfl
    rw [hstep, if_pos hmem2]

/-- C7: the header issues the pragma `warning (disable : 4326)` exactly
when `_WINDOWS` is defined, and issues no such pragma otherwise. -/
theorem warning_pragma_iff_windows (st : PPState)
    (h1 : "SmartCL.h" ∉ st.onceFiles) :
    (includeSmartCL st).pragmas =
      st.pragmas ++
        (if isDefined st.macros "_WINDOWS" = true then ["warning (disable : 4326)"] else []) := by
  cases h2 : isDefined st.macros "_WINDOWS" with
  | true => rw [includeSmartCL_win st h1 h2]; simp
  | false => rw [includeSmartCL_nonwin st h1 h2]; simp

/-- C7 witness: the theorem at the concrete Windows build state. -/
theorem warning_pragma_iff_windows_witness :
    ("SmartCL.h" ∉ stWin.onceFiles) ∧
      (includeSmartCL stWin).pragmas =
        stWin.pragmas ++
          (if isDefined stWin.macros "_WINDOWS" = true then ["warning (disable : 4326)"] else []) :=
  ⟨by decide, warning_pragma_iff_windows stWin (by decide)⟩

/-- C8: the source file is exactly 15 lines long, and every line is
either blank or a preprocessor directive: it holds no function
definitions, declarations, control flow or executable logic. -/
theorem source_is_15_lines_of_directives :
    SmartCL_h_text.length = 15 ∧
      SmartCL_h_text.all (fun l => isBlankLine l || isDirectiveLine l) = true := by
  decide

/-- C9: with `_WINDOWS` defined, the header also defines the macro
`WIN32_LEAN_AND_MEAN` with an empty replacement list, and that definition
is already in the macro table captured at the `windows.h` include event,
i.e. it happens before `windows.h` is included. -/
theorem lean_and_mean_before_windows_h (st : PPState)
    (h1 : "SmartCL.h" ∉ st.onceFiles)
    (h2 : isDefined st.macros "_WINDOWS" = true) :
    lookupDef (includeSmartCL st).macros "WIN32_LEAN_AND_MEAN" = some [] ∧
      (includeSmartCL st).includes =
        st.includes ++
          [("windows.h", ("WIN32_LEAN_AND_MEAN", []) :: st.macros),
           ("stdio.h", ("WIN32_LEAN_AND_MEAN", []) :: st.macros)] ∧
      lookupDef (("WIN32_LEAN_AND_MEAN", []) :: st.macros) "WIN32_LEAN_AND_MEAN" = some [] := by
  rw [includeSmartCL_win st h1 h2]
  simp [lookupDef]

/-- C9 witness: the theorem at the concrete Windows build state. -/
theorem lean_and_mean_before_windows_h_witness :
    ("SmartCL.h" ∉ stWin.onceFiles) ∧ (isDefined stWin.macros "_WINDOWS" = true) ∧
      (lookupDef (includeSmartCL stWin).macros "WIN32_LEAN_AND_MEAN" = some [] ∧
        (includeSmartCL stWin).includes =
          stWin.includes ++
            [("windows.h", ("WIN32_LEAN_AND_MEAN", []) :: stWin.macros),
             ("stdio.h", ("WIN32_LEAN_AND_MEAN", []) :: stWin.macros)] ∧
        lookupDef (("WIN32_LEAN_AND_MEAN", []) :: stWin.macros) "WIN32_LEAN_AND_MEAN" = some []) :=
  ⟨by decide, by decide, lean_and_mean_before_windows_h stWin (by decide) (by decide)⟩

/-- C10: the header's contribution is a deterministic function of the
single bit "is `_WINDOWS` defined": the macro definitions it adds, the
file names it includes and the pragmas it issues are each given by a
function of that bit alone, so any two runs agreeing on the bit agree on
all three, whatever the rest of the prior state. -/
theorem effect_function_of_windows_bit (st : PPState)
    (h1 : "SmartCL.h" ∉ st.onceFiles) :
    (includeSmartCL st).macros =
        headerMacroDefs (isDefined st.macros "_WINDOWS") ++ st.macros ∧
      (includeSmartCL st).includes.map Prod.fst =
        st.includes.map Prod.fst ++ headerIncludeNames (isDefined st.macros "_WINDOWS") ∧
      (includeSmartCL st).pragmas =
        st.pragmas ++ headerPragmaList (isDefined st.macros "_WINDOWS") := by
  cases h2 : isDefined st.macros "_WINDOWS" with
  | true =>
      rw [includeSmartCL_win st h1 h2]
      simp [headerMacroDefs, headerIncludeNames, headerPragmaList]
  | false =>
      rw [includeSmartCL_nonwin st h1 h2]
      simp [headerMacroDefs, headerIncludeNames, headerPragmaList]

/-- C10 witness: the theorem at the concrete Windows build state. -/
theorem effect_function_of_windows_bit_witness :
    ("SmartCL.h" ∉ stWin.onceFiles) ∧
      ((includeSmartCL stWin).macros =
          headerMacroDefs (isDefined stWin.macros "_WINDOWS") ++ stWin.macros ∧
        (includeSmartCL stWin).includes.map Prod.fst =
          stWin.includes.map Prod.fst ++ headerIncludeNames (isDefined stWin.macros "_WINDOWS") ∧
        (includeSmartCL stWin).pragmas =
          stWin.pragmas ++ headerPragmaList (isDefined stWin.macros "_WINDOWS")) :=
  ⟨by decide, effect_function_of_windows_bit stWin (by decide)⟩
